import Mathlib

/-!
Shallow embedding of the Fchat metrics computation engine
(src/src/analytics/framework.py and src/src/analytics/metrics/team_identity.py),
with theorems settling the specification claims about it.

Modelling conventions:
* pandas DataFrames become `DataFrame`: a list of column names plus a list of
  rows (each row a list of cell values aligned with the column list);
* Python dicts that carry heterogeneous metric data become `PyDict`, an
  insertion-ordered association list from `String` to `MVal` with Python's
  update-in-place semantics for existing keys;
* Python exceptions become `Except String`; a computation that the source
  wraps in try/except is modelled with the catch made explicit;
* wall-clock readings (`time.time()`, file mtimes, per-section durations) are
  ambient parameters threaded into the functions that read the clock;
* numeric cell values are rationals (floats idealised as exact arithmetic);
  the two metric values whose computation involves irrational functions
  (a standard deviation and a Shannon entropy) are kept as symbolic
  constructors carrying exactly the data they are computed from, since no
  claim depends on their numeric value;
* the thread-pool completion order of `as_completed` is an explicit
  parameter `order`, quantified over all permutations of the registry.
-/

set_option autoImplicit false

namespace Fchat

/-- Cell value of a tabular input: a string, an exact rational number, or a
missing value (Python None / NaN). -/
inductive Value : Type where
  | null : Value
  | str : String → Value
  | num : Rat → Value
deriving DecidableEq, Repr

/-- Tabular input (pandas DataFrame): ordered column names and rows of cells,
each row aligned positionally with the column list. -/
structure DataFrame : Type where
  cols : List String
  rows : List (List Value)
deriving Repr

/-- Cell of a row at a named column; `null` when the column is absent from the
schema or the row is short. -/
def DataFrame.cell (df : DataFrame) (row : List Value) (c : String) : Value :=
  match df.cols.indexOf? c with
  | some i => row.getD i .null
  | none => .null

/-- Column access `df[c]` as a whole column; raises KeyError when the column
is absent, as pandas does. -/
def DataFrame.getCol (df : DataFrame) (c : String) : Except String (List Value) :=
  if c ∈ df.cols then .ok (df.rows.map (fun r => df.cell r c))
  else .error ("KeyError: " ++ c)

/-- Boolean-mask filter `df[df[c] == v]`; raises KeyError when the column is
absent. -/
def DataFrame.filterEq (df : DataFrame) (c : String) (v : Value) : Except String DataFrame :=
  if c ∈ df.cols then .ok ⟨df.cols, df.rows.filter (fun r => df.cell r c == v)⟩
  else .error ("KeyError: " ++ c)

/-- Series.mean(): arithmetic mean of the numeric entries, skipping missing
values (pandas skipna); NaN — modelled as `null` — when nothing remains. -/
def meanVals (vs : List Value) : Value :=
  let nums := vs.filterMap (fun v => match v with | .num q => some q | _ => none)
  if nums.length = 0 then .null else .num (nums.foldr (· + ·) 0 / nums.length)

/-- Number of distinct non-missing values of a column (Series.nunique()). -/
def nuniqueVals (vs : List Value) : Nat :=
  ((vs.filter (fun v => v != .null)).dedup).length

/-- Metric value: the payload vocabulary of the result dictionaries.
`stdMeanBy pairs` stands for the unevaluated
`groupby(first)[second].std().mean()` aggregate over the listed
(key, value) pairs, and `entropyScore ps base` for
`1 - H(ps)/log base`; both involve irrational functions and no claim
depends on their numeric value, so they are kept symbolic. -/
inductive MVal : Type where
  | null : MVal
  | str : String → MVal
  | num : Rat → MVal
  | dict : List (String × MVal) → MVal
  | list : List MVal → MVal
  | stdMeanBy : List (Value × Value) → MVal
  | entropyScore : List Rat → Nat → MVal

/-- Python dict with string keys: insertion-ordered association list. -/
abbrev PyDict : Type := List (String × MVal)

/-- Python dict assignment `d[k] = v`: updates in place when the key exists
(keeping its position), appends otherwise. -/
def PyDict.set (d : PyDict) (k : String) (v : MVal) : PyDict :=
  if d.any (fun p => p.1 == k) then
    d.map (fun p => if p.1 == k then (k, v) else p)
  else d ++ [(k, v)]

/-- Python `d.get(k)`: first entry with the key, if any. -/
def PyDict.get (d : PyDict) (k : String) : Option MVal :=
  (d.find? (fun p => p.1 == k)).map (fun p => p.2)

/-- Embed a cell value into the metric-value vocabulary. -/
def Value.toMVal : Value → MVal
  | .null => .null
  | .str s => .str s
  | .num q => .num q

/-- Signature of an analytic section function
`(events_df, phases_df) -> dict`; an exception is an `error`. -/
abbrev AnalyticFn : Type := DataFrame → Option DataFrame → Except String PyDict

/-- Section descriptor: one entry of `MetricsEngine.sections`. -/
structure Section : Type where
  id : String
  name : String
  icon : String
  function : AnalyticFn
  weight : Nat

/-- Identity, display name and icon of the 14 registered sections, in registry
order, exactly as listed in `MetricsEngine.__init__`. -/
def sectionMeta : List (String × String × String) :=
  [("team_identity", "Team Identity & Setup", "🧩"),
   ("possession", "Possession & Build-Up", "⚙️"),
   ("chance_creation", "Chance Creation", "⚡"),
   ("defensive_structure", "Defensive Structure", "🛡️"),
   ("transitions", "Transitions", "🔄"),
   ("tactical_intelligence", "Tactical Intelligence", "🧠"),
   ("individual_players", "Individual Players", "👤"),
   ("team_chemistry", "Team Chemistry", "🤝"),
   ("efficiency", "Efficiency", "📊"),
   ("set_pieces", "Set-Pieces", "⚽"),
   ("momentum", "Momentum", "📈"),
   ("consistency", "Consistency", "🎯"),
   ("training_focus", "Training Focus", "💪"),
   ("opponent_exploitation", "Opponent Exploitation", "🎲")]

/-- The registry `self.sections`, with the binding of ids to computation
functions abstracted as `fn` (the framework treats the functions as opaque
callables; every claim about the engine is proved for all bindings, hence in
particular for the 14 concrete analytic functions). -/
def mkEngineSections (fn : String → AnalyticFn) : List Section :=
  sectionMeta.map (fun m => ⟨m.1, m.2.1, m.2.2, fn m.1, 1⟩)

/-- The registry id list, in registry order. -/
def sectionIds : List String := sectionMeta.map (fun m => m.1)

/-- Python list repr of a list of strings, `['a', 'b']`, as produced by the
f-string over `df.columns.tolist()` (column names are assumed not to contain
a single quote, under which Python repr would switch quoting style). -/
def pyStrListRepr (cols : List String) : String :=
  "[" ++ String.intercalate ", " (cols.map (fun c => "\x27" ++ c ++ "\x27")) ++ "]"

/-- The md5 hexdigest applied to the key string in
`MetricsEngine._generate_cache_key`, idealised as the identity function: md5
is a fixed injective-in-practice digest, so every claim about equality or
inequality of cache keys is decided by the pre-hash key string. -/
def md5_hexdigest (s : String) : String := s

/-- MetricsEngine._generate_cache_key: builds the key string from the events
row count, the ordered events column list, then (when phases is present) the
phases row count and ordered column list, then (when the identifier is truthy,
i.e. present and nonempty) the identifier, and hashes it. -/
def _generate_cache_key (events_df : DataFrame) (phases_df : Option DataFrame)
    (team_id : Option String) : String :=
  let key1 := toString events_df.rows.length ++ "_" ++ pyStrListRepr events_df.cols
  let key2 :=
    match phases_df with
    | some p => key1 ++ "_" ++ toString p.rows.length ++ "_" ++ pyStrListRepr p.cols
    | none => key1
  let key3 :=
    match team_id with
    | some t => if t = "" then key2 else key2 ++ "_" ++ t
    | none => key2
  md5_hexdigest key3

/-- One persisted cache entry: the pickled blob (an unreadable or corrupt blob
is an `error`, the exception message of `pickle.load`) and the file mtime. -/
structure CacheEntry : Type where
  blob : Except String PyDict
  mtime : Int

/-- The on-disk cache directory: entries addressed by key string. -/
abbrev Cache : Type := List (String × CacheEntry)

/-- Entry stored under a key, if any (file existence check). -/
def Cache.lookupEntry (cache : Cache) (key : String) : Option CacheEntry :=
  (cache.find? (fun p => p.1 == key)).map (fun p => p.2)

/-- MetricsEngine._load_from_cache: absent file gives None; a raising
`pickle.load` is caught and gives None; a loaded blob is returned only when
the entry is younger than the 3600-second TTL, else None. The lookup never
deletes or rewrites the entry (it is a pure read). -/
def _load_from_cache (cache : Cache) (now : Int) (cache_key : String) : Option PyDict :=
  match cache.lookupEntry cache_key with
  | none => none
  | some entry =>
    match entry.blob with
    | .error _ => none
    | .ok cached_data => if now - entry.mtime < 3600 then some cached_data else none

/-- MetricsEngine._save_to_cache: writes the blob under the key with the
current time as mtime; a raising `pickle.dump` (modelled by the ambient
`writeOk` flag being false) is caught and leaves the store untouched. -/
def _save_to_cache (cache : Cache) (now : Int) (writeOk : Bool) (cache_key : String)
    (data : PyDict) : Cache :=
  if writeOk then
    (if cache.any (fun p => p.1 == cache_key) then
      cache.map (fun p => if p.1 == cache_key then (cache_key, ⟨.ok data, now⟩) else p)
    else cache ++ [(cache_key, ⟨.ok data, now⟩)])
  else cache

/-- MetricsEngine.compute_section: runs the section function; on normal
return, augments the returned dict with id, name, icon, wall-clock duration
and status success; on any exception, returns a fresh error dict with id,
name, icon, a section label, status error, the exception text, and empty
metrics — and no computation_time key. -/
def compute_section (s : Section) (events_df : DataFrame) (phases_df : Option DataFrame)
    (duration : Rat) : PyDict :=
  match s.function events_df phases_df with
  | .ok result =>
    ((((result.set "id" (.str s.id)).set "name" (.str s.name)).set
        "icon" (.str s.icon)).set
      "computation_time" (.num duration)).set "status" (.str "success")
  | .error e =>
    [("id", .str s.id), ("name", .str s.name), ("icon", .str s.icon),
     ("section", .str s.name), ("status", .str "error"), ("error", .str e),
     ("metrics", .dict [])]

/-- Row count of an optional phases table: `len(phases_df)` when present,
0 when absent. -/
def pyLenOpt (df : Option DataFrame) : Nat :=
  match df with
  | some p => p.rows.length
  | none => 0

/-- One progress-callback invocation `(completed, total, message)`. -/
abbrev ProgressEvent : Type := Nat × Nat × String

/-- Outcome of one `compute_all_metrics` call: the returned bundle, the
sequence of progress-callback invocations, the cache directory afterwards,
and the ids of the sections whose computation function was executed. -/
structure RunOutcome : Type where
  bundle : PyDict
  progress : List ProgressEvent
  cache : Cache
  executed : List String

/-- The as_completed loop of `compute_all_metrics`: processes the futures in
completion order, inserting each section result under its id and firing one
progress callback per completion. Because `compute_section` catches every
exception, `future.result()` never raises and the except branch of the loop
body is unreachable; the callback message is always the Completed one. The
loop body runs in the calling thread, so callback invocations are serial. -/
def runSections (total : Nat) (hasCb : Bool) (events_df : DataFrame)
    (phases_df : Option DataFrame) (durs : String → Rat) :
    List Section → Nat → List (String × PyDict) × List ProgressEvent
  | [], _ => ([], [])
  | s :: rest, completed =>
    let r := compute_section s events_df phases_df (durs s.id)
    let rec_result := runSections total hasCb events_df phases_df durs rest (completed + 1)
    ((s.id, r) :: rec_result.1,
     (if hasCb then [(completed + 1, total, "Completed: " ++ s.name)] else [])
       ++ rec_result.2)

/-- Python truth test on a result status field, `s.get(\x7bkey\x7d) == value`. -/
def statusIs (d : PyDict) (v : String) : Bool :=
  match d.get "status" with
  | some (.str t) => t == v
  | _ => false

/-- MetricsEngine.compute_all_metrics. Ambient inputs beyond the Python
signature: the cache directory state, the current time, whether a cache write
would succeed, the completion order of the thread pool (a permutation of the
registry in any run), the per-section wall-clock durations, whether a progress
callback was supplied, and the wall-clock readings at summary start and end.
Returns the bundle together with the observable effects. -/
def compute_all_metrics (sections : List Section) (events_df : DataFrame)
    (phases_df : Option DataFrame) (team_id : Option String)
    (use_cache : Bool) (hasCb : Bool) (cache : Cache) (now : Int) (writeOk : Bool)
    (order : List Section) (durs : String → Rat) (startT endT : Rat) : RunOutcome :=
  let cache_key := _generate_cache_key events_df phases_df team_id
  let cached_results := if use_cache then _load_from_cache cache now cache_key else none
  match cached_results with
  | some cached =>
    { bundle := cached
      progress :=
        if hasCb then [(sections.length, sections.length, "Loaded from cache")] else []
      cache := cache
      executed := [] }
  | none =>
    let run := runSections sections.length hasCb events_df phases_df durs order 0
    let secResults := run.1
    let summary0 : PyDict :=
      [("total_sections", .num (sections.length : Rat)),
       ("total_events", .num (events_df.rows.length : Rat)),
       ("total_phases", .num ((pyLenOpt phases_df : Nat) : Rat)),
       ("computation_start", .num startT)]
    let successful := secResults.countP (fun p => statusIs p.2 "success")
    let failed := secResults.countP (fun p => statusIs p.2 "error")
    let summary :=
      (((summary0.set "computation_end" (.num endT)).set
          "total_time" (.num (endT - startT))).set
        "successful_sections" (.num (successful : Rat))).set
        "failed_sections" (.num (failed : Rat))
    let bundle : PyDict :=
      [("team_id", match team_id with | some t => .str t | none => .null),
       ("sections", .dict (secResults.map (fun p => (p.1, MVal.dict p.2)))),
       ("summary", MVal.dict summary)]
    let cache2 := if use_cache then _save_to_cache cache now writeOk cache_key bundle else cache
    { bundle := bundle
      progress := run.2
      cache := cache2
      executed := order.map (fun s => s.id) }

/-- Python dict.update: sets every entry of the second dict in the first. -/
def PyDict.update (d : PyDict) (e : PyDict) : PyDict :=
  e.foldl (fun acc p => acc.set p.1 p.2) d

/-- Python str() of a cell value, used by the f-string fallback name
`Player \x7bplayer_id\x7d` (numeric formatting idealised as the exact
rational rendering). -/
def pyStr : Value → String
  | .null => "None"
  | .str s => s
  | .num q => toString q

/-- Series.value_counts(normalize=True): relative frequencies of the
non-missing values (pandas orders them by frequency; only the multiset of
probabilities is ever consumed, so first-occurrence order is kept). -/
def valueCountsNorm (vs : List Value) : List Rat :=
  let present := vs.filter (fun v => v != .null)
  (present.dedup).map (fun v => (present.count v : Rat) / (present.length : Rat))

/-- Whether the Shannon entropy of a value_counts distribution is strictly
positive: the source compares `entropy > 0`, and `-Σ p·log p` over
probabilities summing to one is positive exactly when some probability lies
strictly between 0 and 1. -/
def entropyPositive (ps : List Rat) : Bool :=
  ps.any (fun p => decide (0 < p) && decide (p < 1))

/-- Loop body of analyze_formation_fluidity for one phase type: filter the
events to the phase type (KeyError when the phase-type column is absent) and,
when any rows match, record the mean start length and width (KeyError when
those columns are absent). -/
def formationStep (events_df : DataFrame) (metrics : PyDict) (phase_type : String) :
    Except String PyDict := do
  let phase_data ← events_df.filterEq "team_in_possession_phase_type" (.str phase_type)
  if phase_data.rows.length > 0 then
    let lens ← phase_data.getCol "team_in_possession_length_start"
    let wids ← phase_data.getCol "team_in_possession_width_start"
    pure ((metrics.set ("team_length_avg_" ++ phase_type) (meanVals lens).toMVal).set
      ("team_width_avg_" ++ phase_type) (meanVals wids).toMVal)
  else
    pure metrics

/-- analyze_channel_asymmetry (team_identity.py): guarded on the presence of
both the position and channel columns; computes the wide rates of the two
fullbacks from the groupby size counts (groupby drops rows whose key is
missing) and their asymmetry. -/
def analyze_channel_asymmetry (events_df : DataFrame) : PyDict :=
  if "player_position" ∈ events_df.cols ∧ "channel_start" ∈ events_df.cols then
    let pairs := (events_df.rows.map (fun r =>
        (events_df.cell r "player_position", events_df.cell r "channel_start"))).filter
        (fun p => p.1 != .null && p.2 != .null)
    let lb := (pairs.filter (fun p => p.1 == .str "LB")).map (fun p => p.2)
    let rb := (pairs.filter (fun p => p.1 == .str "RB")).map (fun p => p.2)
    let lb_wide_rate : Rat :=
      if lb.length > 0 then
        (if lb.length > 0 then (lb.count (.str "wide_left") : Rat) / (lb.length : Rat) else 0)
      else 0
    let rb_wide_rate : Rat :=
      if rb.length > 0 then
        (if rb.length > 0 then (rb.count (.str "wide_right") : Rat) / (rb.length : Rat) else 0)
      else 0
    [("lb_wide_rate", .num lb_wide_rate), ("rb_wide_rate", .num rb_wide_rate),
     ("fullback_asymmetry", .num |lb_wide_rate - rb_wide_rate|)]
  else []

/-- analyze_formation_fluidity (team_identity.py): per-phase-type vertical
compactness (phase-type column accessed unguarded), shape-change rate guarded
on phase_index only (the grouped length column itself is accessed unguarded),
then the channel-asymmetry metrics merged in. -/
def analyze_formation_fluidity (events_df : DataFrame) : Except String PyDict := do
  let m1 ← formationStep events_df [] "build_up"
  let m2 ← formationStep events_df m1 "create"
  let m3 ← formationStep events_df m2 "finish"
  let m4 ←
    if "phase_index" ∈ events_df.cols then do
      let lens ← events_df.getCol "team_in_possession_length_start"
      let keys := events_df.rows.map (fun r => events_df.cell r "phase_index")
      pure (m3.set "length_change_per_phase" (.stdMeanBy (keys.zip lens)))
    else pure m3
  pure (m4.update (analyze_channel_asymmetry events_df))

/-- One iteration of the analyze_player_role_clarity loop: skipped for a
missing player id (pd.isna) or an empty per-player slice; otherwise the
per-player record with guarded optional columns. -/
def playerRecord (events_df : DataFrame) (pid : Value) : Option PyDict :=
  if pid == .null then none
  else
    let player_data : DataFrame :=
      ⟨events_df.cols, events_df.rows.filter (fun r => events_df.cell r "player_id" == pid)⟩
    if player_data.rows.length = 0 then none
    else
      let channel_dist := valueCountsNorm
        (player_data.rows.map (fun r => player_data.cell r "channel_start"))
      let channelEntropyPos :=
        "channel_start" ∈ player_data.cols ∧ entropyPositive channel_dist = true
      let third_dist := valueCountsNorm
        (player_data.rows.map (fun r => player_data.cell r "third_start"))
      let thirdEntropyPos :=
        "third_start" ∈ player_data.cols ∧ entropyPositive third_dist = true
      let n := player_data.rows.length
      let phaseCount := fun (pt : String) =>
        (player_data.rows.filter (fun r =>
          player_data.cell r "team_in_possession_phase_type" == .str pt)).length
      let hasPhase := "team_in_possession_phase_type" ∈ player_data.cols
      let build_up_rate : Rat := if hasPhase then (phaseCount "build_up" : Rat) / (n : Rat) else 0
      let create_rate : Rat := if hasPhase then (phaseCount "create" : Rat) / (n : Rat) else 0
      let finish_rate : Rat := if hasPhase then (phaseCount "finish" : Rat) / (n : Rat) else 0
      let firstRow := player_data.rows.headD []
      let player_name : MVal :=
        if "player_name" ∈ player_data.cols then (player_data.cell firstRow "player_name").toMVal
        else .str ("Player " ++ pyStr pid)
      let position : MVal :=
        if "player_position" ∈ player_data.cols then
          (player_data.cell firstRow "player_position").toMVal
        else .str "Unknown"
      some
        [("player_id", pid.toMVal), ("player_name", player_name), ("position", position),
         ("build_up_rate", .num build_up_rate), ("create_rate", .num create_rate),
         ("finish_rate", .num finish_rate),
         ("channel_consistency",
           if channelEntropyPos then .entropyScore channel_dist 5 else .num 1),
         ("third_consistency",
           if thirdEntropyPos then .entropyScore third_dist 3 else .num 1),
         ("total_actions", .num (n : Rat))]

/-- analyze_player_role_clarity (team_identity.py): iterates the distinct
player ids of the events (the player_id column accessed unguarded: KeyError
when absent) and collects the per-player records. -/
def analyze_player_role_clarity (events_df : DataFrame) :
    Except String (List PyDict) := do
  let pidCol ← events_df.getCol "player_id"
  pure ((pidCol.dedup).filterMap (fun pid => playerRecord events_df pid))

/-- analyze_team_identity (team_identity.py): formation fluidity, then player
roles, then the guarded summary counters; the phases input is unused by this
section. -/
def analyze_team_identity (events_df : DataFrame) (phases_df : Option DataFrame) :
    Except String PyDict := do
  let _ := phases_df
  let formation_metrics ← analyze_formation_fluidity events_df
  let player_roles ← analyze_player_role_clarity events_df
  let rolesVal : MVal := .list (player_roles.map (fun r => .dict r))
  let summary : PyDict :=
    [("total_players",
      .num (if "player_id" ∈ events_df.cols then
        ((nuniqueVals (events_df.rows.map (fun r => events_df.cell r "player_id"))) : Rat)
      else 0)),
     ("total_actions", .num (events_df.rows.length : Rat)),
     ("unique_positions",
      .num (if "player_position" ∈ events_df.cols then
        ((nuniqueVals (events_df.rows.map (fun r => events_df.cell r "player_position"))) : Rat)
      else 0))]
  pure [("section", .str "Team Identity & Setup"),
        ("metrics", .dict [("formation", .dict formation_metrics),
                           ("player_roles", rolesVal),
                           ("summary", .dict summary)])]

/-- The team_identity entry of the registry with its real computation
function bound, as in `MetricsEngine.__init__`. -/
def teamIdentitySection : Section :=
  ⟨"team_identity", "Team Identity & Setup", "🧩",
   fun e p => analyze_team_identity e p, 1⟩

/-- Whether an Except-valued computation returned normally. -/
def exOk (e : Except String PyDict) : Bool :=
  match e with
  | .ok _ => true
  | .error _ => false

theorem find?_map_replace {β : Type} (d : List (String × β)) (k : String) (v : β) :
    (d.map (fun p => if p.1 == k then (k, v) else p)).find? (fun p => p.1 == k) =
      (d.find? (fun p => p.1 == k)).map (fun _ => (k, v)) := by
  induction d with
  | nil => rfl
  | cons a t ih =>
    rw [List.map_cons]
    cases h : (a.1 == k) with
    | true =>
      rw [if_pos rfl]
      simp only [List.find?, beq_self_eq_true, h, Option.map_some']
    | false =>
      rw [if_neg (by simp)]
      simp only [List.find?, h, ih]

theorem find?_map_replace_ne {β : Type} (d : List (String × β)) (k : String) (v : β)
    (k2 : String) (hne : k2 ≠ k) :
    (d.map (fun p => if p.1 == k then (k, v) else p)).find? (fun p => p.1 == k2) =
      d.find? (fun p => p.1 == k2) := by
  induction d with
  | nil => rfl
  | cons a t ih =>
    rw [List.map_cons]
    cases h : (a.1 == k) with
    | true =>
      have hak : a.1 = k := by simpa using h
      have h2 : (a.1 == k2) = false := by
        rw [hak]
        exact beq_false_of_ne (fun hc => hne hc.symm)
      have h3 : (k == k2) = false := beq_false_of_ne (fun hc => hne hc.symm)
      rw [if_pos rfl]
      simp only [List.find?, h2, h3, ih]
    | false =>
      rw [if_neg (by simp)]
      cases h2 : (a.1 == k2) with
      | true => simp only [List.find?, h2]
      | false => simp only [List.find?, h2, ih]

theorem PyDict.get_set_self (d : PyDict) (k : String) (v : MVal) :
    (d.set k v).get k = some v := by
  unfold PyDict.set PyDict.get
  by_cases h : (d.any (fun p => p.1 == k)) = true
  · rw [if_pos h, find?_map_replace]
    have hs : (d.find? (fun p => p.1 == k)).isSome = true := by
      rw [List.find?_isSome]
      simpa [List.any_eq_true] using h
    obtain ⟨a, ha⟩ := Option.isSome_iff_exists.mp hs
    simp [ha]
  · rw [if_neg h, List.find?_append]
    have hn : d.find? (fun p => p.1 == k) = none := by
      rw [List.find?_eq_none]
      intro x hx hpx
      exact h (List.any_eq_true.mpr ⟨x, hx, hpx⟩)
    simp [hn, List.find?]

theorem PyDict.get_set_ne (d : PyDict) (k : String) (v : MVal) (k2 : String)
    (hne : k2 ≠ k) : (d.set k v).get k2 = d.get k2 := by
  unfold PyDict.set PyDict.get
  by_cases h : (d.any (fun p => p.1 == k)) = true
  · rw [if_pos h, find?_map_replace_ne d k v k2 hne]
  · rw [if_neg h, List.find?_append]
    have h2 : ¬ ((((k, v) : String × MVal).1 == k2) = true) := by
      simp
      exact fun hc => hne hc.symm
    cases hd : d.find? (fun p => p.1 == k2) <;> simp [hd, List.find?, h2]

theorem compute_section_status (s : Section) (ev : DataFrame) (ph : Option DataFrame)
    (d : Rat) :
    (compute_section s ev ph d).get "status" =
      some (.str (if exOk (s.function ev ph) then "success" else "error")) := by
  unfold compute_section exOk
  cases h : s.function ev ph with
  | ok r => simp [PyDict.get_set_self]
  | error e => rfl

theorem statusIs_compute_section_success (s : Section) (ev : DataFrame)
    (ph : Option DataFrame) (d : Rat) :
    statusIs (compute_section s ev ph d) "success" = exOk (s.function ev ph) := by
  unfold statusIs
  rw [compute_section_status]
  cases hexOk : exOk (s.function ev ph) <;> simp

theorem statusIs_compute_section_error (s : Section) (ev : DataFrame)
    (ph : Option DataFrame) (d : Rat) :
    statusIs (compute_section s ev ph d) "error" = !exOk (s.function ev ph) := by
  unfold statusIs
  rw [compute_section_status]
  cases hexOk : exOk (s.function ev ph) <;> simp

theorem runSections_results (total : Nat) (hasCb : Bool) (ev : DataFrame)
    (ph : Option DataFrame) (durs : String → Rat) :
    ∀ (order : List Section) (c : Nat),
      (runSections total hasCb ev ph durs order c).1 =
        order.map (fun s => (s.id, compute_section s ev ph (durs s.id))) := by
  intro order
  induction order with
  | nil => intro c; rfl
  | cons s rest ih => intro c; simp [runSections, ih]

theorem runSections_trace_fst (total : Nat) (ev : DataFrame) (ph : Option DataFrame)
    (durs : String → Rat) :
    ∀ (order : List Section) (c : Nat),
      ((runSections total true ev ph durs order c).2.map (fun t => t.1)) =
        List.range' (c + 1) order.length := by
  intro order
  induction order with
  | nil => intro c; rfl
  | cons s rest ih =>
    intro c
    simp only [runSections, List.length_cons, List.range'_succ, if_true,
      List.singleton_append, List.map_cons, ih (c + 1)]

theorem runSections_trace_total (total : Nat) (ev : DataFrame) (ph : Option DataFrame)
    (durs : String → Rat) :
    ∀ (order : List Section) (c : Nat),
      ∀ t ∈ (runSections total true ev ph durs order c).2, t.2.1 = total := by
  intro order
  induction order with
  | nil => intro c t ht; cases ht
  | cons s rest ih =>
    intro c t ht
    simp only [runSections, if_true, List.singleton_append, List.mem_cons] at ht
    rcases ht with h | h
    · rw [h]
    · exact ih (c + 1) t h

theorem countP_add_countP_not {α : Type} (p : α → Bool) (l : List α) :
    l.countP p + l.countP (fun a => !p a) = l.length := by
  induction l with
  | nil => rfl
  | cons a t ih =>
    rw [List.countP_cons, List.countP_cons]
    cases h : p a <;> simp [h] <;> omega

theorem countP_unique_failure (p : String → Bool) :
    ∀ (l : List String), l.Nodup → ∀ b, b ∈ l → p b = false →
      (∀ i ∈ l, i ≠ b → p i = true) → l.countP p + 1 = l.length := by
  intro l
  induction l with
  | nil => intro _ b hb; cases hb
  | cons a t ih =>
    intro hnd b hb hpb hrest
    rw [List.countP_cons]
    rcases List.mem_cons.mp hb with rfl | hbt
    · have hfull : t.countP p = t.length := by
        refine List.countP_eq_length.mpr (fun i hi => ?_)
        refine hrest i (List.mem_cons_of_mem _ hi) (fun he => ?_)
        exact (List.nodup_cons.mp hnd).1 (he ▸ hi)
      simp [hpb, hfull]
    · have ha : a ≠ b := fun he => (List.nodup_cons.mp hnd).1 (he ▸ hbt)
      have hpa : p a = true := hrest a (List.mem_cons_self a t) ha
      have hih := ih (List.nodup_cons.mp hnd).2 b hbt hpb
        (fun i hi hib => hrest i (List.mem_cons_of_mem _ hi) hib)
      simp [hpa]
      omega

/-- The per-section success count of the compute path, reduced to the
underlying function outcomes along the completion order. -/
theorem countP_success_runSections (total : Nat) (hasCb : Bool) (ev : DataFrame)
    (ph : Option DataFrame) (durs : String → Rat) (order : List Section) (c : Nat) :
    ((runSections total hasCb ev ph durs order c).1.countP
        (fun p => statusIs p.2 "success")) =
      order.countP (fun s => exOk (s.function ev ph)) := by
  rw [runSections_results, List.countP_map]
  refine List.countP_congr (fun s _ => ?_)
  simp [Function.comp, statusIs_compute_section_success]

/-- The per-section error count of the compute path, reduced to the
underlying function outcomes along the completion order. -/
theorem countP_error_runSections (total : Nat) (hasCb : Bool) (ev : DataFrame)
    (ph : Option DataFrame) (durs : String → Rat) (order : List Section) (c : Nat) :
    ((runSections total hasCb ev ph durs order c).1.countP
        (fun p => statusIs p.2 "error")) =
      order.countP (fun s => !exOk (s.function ev ph)) := by
  rw [runSections_results, List.countP_map]
  refine List.countP_congr (fun s _ => ?_)
  simp [Function.comp, statusIs_compute_section_error]

theorem sectionIds_nodup : sectionIds.Nodup := by decide

theorem length_mkEngineSections (fn : String → AnalyticFn) :
    (mkEngineSections fn).length = 14 := rfl

theorem map_id_mkEngineSections (fn : String → AnalyticFn) :
    (mkEngineSections fn).map (fun s => s.id) = sectionIds := rfl

theorem miss_discriminant (use_cache : Bool) (cache : Cache) (now : Int) (key : String)
    (hmiss : use_cache = false ∨ _load_from_cache cache now key = none) :
    (if use_cache then _load_from_cache cache now key else none) = none := by
  rcases hmiss with h | h
  · simp [h]
  · cases use_cache <;> simp [h]

theorem compute_all_metrics_miss_progress (sections : List Section) (events_df : DataFrame)
    (phases_df : Option DataFrame) (team_id : Option String) (use_cache hasCb : Bool)
    (cache : Cache) (now : Int) (writeOk : Bool) (order : List Section)
    (durs : String → Rat) (startT endT : Rat)
    (hmiss : use_cache = false ∨
      _load_from_cache cache now (_generate_cache_key events_df phases_df team_id) = none) :
    (compute_all_metrics sections events_df phases_df team_id use_cache hasCb cache now
        writeOk order durs startT endT).progress =
      (runSections sections.length hasCb events_df phases_df durs order 0).2 := by
  have hm := miss_discriminant use_cache cache now
    (_generate_cache_key events_df phases_df team_id) hmiss
  simp only [compute_all_metrics]
  rw [hm]

theorem compute_all_metrics_miss_executed (sections : List Section) (events_df : DataFrame)
    (phases_df : Option DataFrame) (team_id : Option String) (use_cache hasCb : Bool)
    (cache : Cache) (now : Int) (writeOk : Bool) (order : List Section)
    (durs : String → Rat) (startT endT : Rat)
    (hmiss : use_cache = false ∨
      _load_from_cache cache now (_generate_cache_key events_df phases_df team_id) = none) :
    (compute_all_metrics sections events_df phases_df team_id use_cache hasCb cache now
        writeOk order durs startT endT).executed = order.map (fun s => s.id) := by
  have hm := miss_discriminant use_cache cache now
    (_generate_cache_key events_df phases_df team_id) hmiss
  simp only [compute_all_metrics]
  rw [hm]

theorem compute_all_metrics_miss_sections (sections : List Section) (events_df : DataFrame)
    (phases_df : Option DataFrame) (team_id : Option String) (use_cache hasCb : Bool)
    (cache : Cache) (now : Int) (writeOk : Bool) (order : List Section)
    (durs : String → Rat) (startT endT : Rat)
    (hmiss : use_cache = false ∨
      _load_from_cache cache now (_generate_cache_key events_df phases_df team_id) = none) :
    (compute_all_metrics sections events_df phases_df team_id use_cache hasCb cache now
        writeOk order durs startT endT).bundle.get "sections" =
      some (.dict ((runSections sections.length hasCb events_df phases_df durs order 0).1.map
        (fun p => (p.1, MVal.dict p.2)))) := by
  have hm := miss_discriminant use_cache cache now
    (_generate_cache_key events_df phases_df team_id) hmiss
  simp only [compute_all_metrics]
  rw [hm]
  rfl

theorem compute_all_metrics_miss_summary (sections : List Section) (events_df : DataFrame)
    (phases_df : Option DataFrame) (team_id : Option String) (use_cache hasCb : Bool)
    (cache : Cache) (now : Int) (writeOk : Bool) (order : List Section)
    (durs : String → Rat) (startT endT : Rat)
    (hmiss : use_cache = false ∨
      _load_from_cache cache now (_generate_cache_key events_df phases_df team_id) = none) :
    ∃ sm : PyDict,
      (compute_all_metrics sections events_df phases_df team_id use_cache hasCb cache now
          writeOk order durs startT endT).bundle.get "summary" = some (.dict sm) ∧
      sm.get "total_sections" = some (.num (sections.length : Rat)) ∧
      sm.get "total_events" = some (.num (events_df.rows.length : Rat)) ∧
      sm.get "total_phases" = some (.num ((pyLenOpt phases_df : Nat) : Rat)) ∧
      sm.get "successful_sections" =
        some (.num (((runSections sections.length hasCb events_df phases_df durs
          order 0).1.countP (fun p => statusIs p.2 "success")) : Rat)) ∧
      sm.get "failed_sections" =
        some (.num (((runSections sections.length hasCb events_df phases_df durs
          order 0).1.countP (fun p => statusIs p.2 "error")) : Rat)) := by
  have hm := miss_discriminant use_cache cache now
    (_generate_cache_key events_df phases_df team_id) hmiss
  simp only [compute_all_metrics]
  rw [hm]
  refine ⟨_, rfl, ?_, ?_, ?_, ?_, ?_⟩
  · rw [PyDict.get_set_ne _ _ _ _ (by decide), PyDict.get_set_ne _ _ _ _ (by decide),
      PyDict.get_set_ne _ _ _ _ (by decide), PyDict.get_set_ne _ _ _ _ (by decide)]
    rfl
  · rw [PyDict.get_set_ne _ _ _ _ (by decide), PyDict.get_set_ne _ _ _ _ (by decide),
      PyDict.get_set_ne _ _ _ _ (by decide), PyDict.get_set_ne _ _ _ _ (by decide)]
    rfl
  · rw [PyDict.get_set_ne _ _ _ _ (by decide), PyDict.get_set_ne _ _ _ _ (by decide),
      PyDict.get_set_ne _ _ _ _ (by decide), PyDict.get_set_ne _ _ _ _ (by decide)]
    rfl
  · rw [PyDict.get_set_ne _ _ _ _ (by decide), PyDict.get_set_self]
  · rw [PyDict.get_set_self]

theorem compute_all_metrics_miss_cache (sections : List Section) (events_df : DataFrame)
    (phases_df : Option DataFrame) (team_id : Option String) (use_cache hasCb : Bool)
    (cache : Cache) (now : Int) (writeOk : Bool) (order : List Section)
    (durs : String → Rat) (startT endT : Rat)
    (hmiss : use_cache = false ∨
      _load_from_cache cache now (_generate_cache_key events_df phases_df team_id) = none) :
    (compute_all_metrics sections events_df phases_df team_id use_cache hasCb cache now
        writeOk order durs startT endT).cache =
      (if use_cache then
        _save_to_cache cache now writeOk (_generate_cache_key events_df phases_df team_id)
          (compute_all_metrics sections events_df phases_df team_id use_cache hasCb cache now
            writeOk order durs startT endT).bundle
      else cache) := by
  have hm := miss_discriminant use_cache cache now
    (_generate_cache_key events_df phases_df team_id) hmiss
  simp only [compute_all_metrics]
  rw [hm]

/-- On the compute path, the returned bundle depends only on the inputs and
the run, never on the cache contents or on whether the cache write succeeds. -/
theorem compute_all_metrics_miss_bundle_indep (sections : List Section)
    (events_df : DataFrame) (phases_df : Option DataFrame) (team_id : Option String)
    (uc1 uc2 hasCb : Bool) (cache1 cache2 : Cache) (now1 now2 : Int) (w1 w2 : Bool)
    (order : List Section) (durs : String → Rat) (startT endT : Rat)
    (hmiss1 : uc1 = false ∨
      _load_from_cache cache1 now1 (_generate_cache_key events_df phases_df team_id) = none)
    (hmiss2 : uc2 = false ∨
      _load_from_cache cache2 now2 (_generate_cache_key events_df phases_df team_id) = none) :
    (compute_all_metrics sections events_df phases_df team_id uc1 hasCb cache1 now1
        w1 order durs startT endT).bundle =
      (compute_all_metrics sections events_df phases_df team_id uc2 hasCb cache2 now2
        w2 order durs startT endT).bundle := by
  have hm1 := miss_discriminant uc1 cache1 now1
    (_generate_cache_key events_df phases_df team_id) hmiss1
  have hm2 := miss_discriminant uc2 cache2 now2
    (_generate_cache_key events_df phases_df team_id) hmiss2
  simp only [compute_all_metrics]
  rw [hm1, hm2]

theorem compute_all_metrics_hit (sections : List Section) (events_df : DataFrame)
    (phases_df : Option DataFrame) (team_id : Option String) (hasCb : Bool)
    (cache : Cache) (now : Int) (writeOk : Bool) (order : List Section)
    (durs : String → Rat) (startT endT : Rat) (cached : PyDict)
    (hhit : _load_from_cache cache now (_generate_cache_key events_df phases_df team_id) =
      some cached) :
    compute_all_metrics sections events_df phases_df team_id true hasCb cache now
        writeOk order durs startT endT =
      { bundle := cached
        progress :=
          if hasCb then [(sections.length, sections.length, "Loaded from cache")] else []
        cache := cache
        executed := [] } := by
  simp [compute_all_metrics, hhit]

theorem countP_mkEngineSections (fn : String → AnalyticFn) (p : Section → Bool) :
    (mkEngineSections fn).countP p =
      sectionMeta.countP (fun m => p ⟨m.1, m.2.1, m.2.2, fn m.1, 1⟩) := by
  unfold mkEngineSections
  rw [List.countP_map]
  rfl

theorem countP_meta_ids (r : String → Bool) :
    sectionMeta.countP (fun m => r m.1) = sectionIds.countP r := by
  unfold sectionIds
  rw [List.countP_map]
  rfl

/-- Sample analytic function that always returns normally with an empty dict. -/
def okFn : AnalyticFn := fun _ _ => .ok []

/-- Sample analytic function that always raises. -/
def failFn : AnalyticFn := fun _ _ => .error "boom"

/-- Function binding for the isolation scenario: the momentum section always
raises, the 13 other sections return normally. -/
def fnMostlyOk : String → AnalyticFn := fun i => if i = "momentum" then failFn else okFn

/-- Function binding in which every section returns normally. -/
def fnAllOk : String → AnalyticFn := fun _ => okFn

/-- Small sample events table. -/
def dfEmpty : DataFrame := ⟨["x"], []⟩

/-- Sample section descriptor whose computation function always raises. -/
def failSection : Section := ⟨"s1", "S one", "i1", failFn, 1⟩

/-- C1: the claim as stated is false on the code: the error branch of
compute_section returns a dict with no computation_time key at all, so no
zero-or-partial duration is recorded. Witnessed at a section whose function
always raises. -/
theorem claim_C1_counterexample :
    failSection.function dfEmpty none = .error "boom" ∧
    (compute_section failSection dfEmpty none 0).get "computation_time" = none :=
  ⟨rfl, rfl⟩

/-- C1 (amended): when the computation function raises, compute_section
returns status error with the failure text under the error key, empty
metrics, the descriptor id, name and icon — and no computation_time key; and
in a batch where exactly one of the 14 registered functions fails on the
given input while the other 13 succeed, the summary tallies exactly 13
successful and 1 failed sections. -/
theorem claim_C1 (fn : String → AnalyticFn) (badId : String) (events_df : DataFrame)
    (phases_df : Option DataFrame) (team_id : Option String) (use_cache hasCb : Bool)
    (cache : Cache) (now : Int) (writeOk : Bool) (order : List Section)
    (durs : String → Rat) (startT endT : Rat)
    (s : Section) (ev2 : DataFrame) (ph2 : Option DataFrame) (e : String) (d : Rat)
    (hs : s.function ev2 ph2 = .error e)
    (hmiss : use_cache = false ∨
      _load_from_cache cache now (_generate_cache_key events_df phases_df team_id) = none)
    (horder : order.Perm (mkEngineSections fn))
    (hbadIn : badId ∈ sectionIds)
    (hbad : exOk (fn badId events_df phases_df) = false)
    (hgood : ∀ i ∈ sectionIds, i ≠ badId → exOk (fn i events_df phases_df) = true) :
    compute_section s ev2 ph2 d =
      [("id", .str s.id), ("name", .str s.name), ("icon", .str s.icon),
       ("section", .str s.name), ("status", .str "error"), ("error", .str e),
       ("metrics", .dict [])] ∧
    (compute_section s ev2 ph2 d).get "computation_time" = none ∧
    (∃ sm : PyDict,
      (compute_all_metrics (mkEngineSections fn) events_df phases_df team_id use_cache
          hasCb cache now writeOk order durs startT endT).bundle.get "summary" =
        some (.dict sm) ∧
      sm.get "successful_sections" = some (.num (13 : Rat)) ∧
      sm.get "failed_sections" = some (.num (1 : Rat))) := by
  have h1 : compute_section s ev2 ph2 d =
      [("id", .str s.id), ("name", .str s.name), ("icon", .str s.icon),
       ("section", .str s.name), ("status", .str "error"), ("error", .str e),
       ("metrics", .dict [])] := by
    unfold compute_section
    rw [hs]
  refine ⟨h1, ?_, ?_⟩
  · rw [h1]; rfl
  · obtain ⟨sm, hsm, hts, hte, htp, hsucc, hfail⟩ :=
      compute_all_metrics_miss_summary (mkEngineSections fn) events_df phases_df team_id
        use_cache hasCb cache now writeOk order durs startT endT hmiss
    have hcount : order.countP (fun sec => exOk (sec.function events_df phases_df)) = 13 := by
      rw [horder.countP_eq, countP_mkEngineSections,
        countP_meta_ids (fun i => exOk (fn i events_df phases_df))]
      have h14 := countP_unique_failure (fun i => exOk (fn i events_df phases_df))
        sectionIds sectionIds_nodup badId hbadIn hbad (fun i hi hib => hgood i hi hib)
      have hlen : sectionIds.length = 14 := rfl
      omega
    have hS : ((runSections (mkEngineSections fn).length hasCb events_df phases_df durs
        order 0).1.countP (fun p => statusIs p.2 "success")) = 13 := by
      rw [countP_success_runSections]
      exact hcount
    have hF : ((runSections (mkEngineSections fn).length hasCb events_df phases_df durs
        order 0).1.countP (fun p => statusIs p.2 "error")) = 1 := by
      rw [countP_error_runSections]
      have hsplit := countP_add_countP_not
        (fun sec => exOk (sec.function events_df phases_df)) order
      have hlen : order.length = 14 := by rw [horder.length_eq]; rfl
      omega
    refine ⟨sm, hsm, ?_, ?_⟩
    · rw [hsucc, hS]; norm_num
    · rw [hfail, hF]; norm_num

/-- C1 witness: the isolation scenario instantiated with the momentum section
always failing and the other 13 succeeding, on a concrete input with caching
off and the registry completion order. -/
theorem claim_C1_witness :
    failSection.function dfEmpty none = .error "boom" ∧
    (false = false ∨
      _load_from_cache [] 0 (_generate_cache_key dfEmpty none none) = none) ∧
    (mkEngineSections fnMostlyOk).Perm (mkEngineSections fnMostlyOk) ∧
    "momentum" ∈ sectionIds ∧
    exOk (fnMostlyOk "momentum" dfEmpty none) = false ∧
    (∀ i ∈ sectionIds, i ≠ "momentum" → exOk (fnMostlyOk i dfEmpty none) = true) ∧
    (compute_section failSection dfEmpty none 0 =
      [("id", .str "s1"), ("name", .str "S one"), ("icon", .str "i1"),
       ("section", .str "S one"), ("status", .str "error"), ("error", .str "boom"),
       ("metrics", .dict [])] ∧
    (compute_section failSection dfEmpty none 0).get "computation_time" = none ∧
    (∃ sm : PyDict,
      (compute_all_metrics (mkEngineSections fnMostlyOk) dfEmpty none none false
          true [] 0 true (mkEngineSections fnMostlyOk) (fun _ => 0) 0 0).bundle.get
            "summary" = some (.dict sm) ∧
      sm.get "successful_sections" = some (.num (13 : Rat)) ∧
      sm.get "failed_sections" = some (.num (1 : Rat)))) :=
  ⟨rfl, Or.inl rfl, List.Perm.refl _, by decide, rfl, by decide,
   claim_C1 fnMostlyOk "momentum" dfEmpty none none false true [] 0 true
     (mkEngineSections fnMostlyOk) (fun _ => 0) 0 0 failSection dfEmpty none "boom" 0
     rfl (Or.inl rfl) (List.Perm.refl _) (by decide) rfl (by decide)⟩

/-- C2: on the compute path (cache miss or caching disabled) the sections
mapping of the returned bundle has exactly the 14 registered section ids as
its keys — a permutation of the registry id list, hence the same key set and
14 entries — for every completion order and every outcome of the section
functions. -/
theorem claim_C2 (fn : String → AnalyticFn) (events_df : DataFrame)
    (phases_df : Option DataFrame) (team_id : Option String) (use_cache hasCb : Bool)
    (cache : Cache) (now : Int) (writeOk : Bool) (order : List Section)
    (durs : String → Rat) (startT endT : Rat)
    (hmiss : use_cache = false ∨
      _load_from_cache cache now (_generate_cache_key events_df phases_df team_id) = none)
    (horder : order.Perm (mkEngineSections fn)) :
    ∃ secs : List (String × MVal),
      (compute_all_metrics (mkEngineSections fn) events_df phases_df team_id use_cache
          hasCb cache now writeOk order durs startT endT).bundle.get "sections" =
        some (.dict secs) ∧
      (secs.map (fun p => p.1)).Perm sectionIds ∧
      (secs.map (fun p => p.1)).toFinset = sectionIds.toFinset ∧
      secs.length = 14 := by
  refine ⟨_, compute_all_metrics_miss_sections (mkEngineSections fn) events_df phases_df
    team_id use_cache hasCb cache now writeOk order durs startT endT hmiss, ?_, ?_, ?_⟩
  all_goals rw [runSections_results]
  · have hkeys :
        (((mkEngineSections fn).length, order).2.map (fun s =>
            (s.id, compute_section s events_df phases_df (durs s.id)))
          |>.map (fun p => (p.1, MVal.dict p.2)) |>.map (fun p => p.1)) =
          order.map (fun s => s.id) := by
      simp [List.map_map, Function.comp]
    rw [List.map_map, List.map_map]
    have hperm := horder.map (fun s => s.id)
    rw [map_id_mkEngineSections] at hperm
    simpa [Function.comp] using hperm
  · rw [List.map_map, List.map_map]
    have hperm := horder.map (fun s => s.id)
    rw [map_id_mkEngineSections] at hperm
    refine List.toFinset_eq_of_perm _ _ ?_
    simpa [Function.comp] using hperm
  · rw [List.map_map, List.length_map]
    rw [horder.length_eq]
    rfl

/-- C2 witness: concrete run with caching disabled, all functions succeeding,
registry completion order. -/
theorem claim_C2_witness :
    (false = false ∨
      _load_from_cache [] 0 (_generate_cache_key dfEmpty none none) = none) ∧
    (mkEngineSections fnAllOk).Perm (mkEngineSections fnAllOk) ∧
    (∃ secs : List (String × MVal),
      (compute_all_metrics (mkEngineSections fnAllOk) dfEmpty none none false
          true [] 0 true (mkEngineSections fnAllOk) (fun _ => 0) 0 0).bundle.get
            "sections" = some (.dict secs) ∧
      (secs.map (fun p => p.1)).Perm sectionIds ∧
      (secs.map (fun p => p.1)).toFinset = sectionIds.toFinset ∧
      secs.length = 14) :=
  ⟨Or.inl rfl, List.Perm.refl _,
   claim_C2 fnAllOk dfEmpty none none false true [] 0 true
     (mkEngineSections fnAllOk) (fun _ => 0) 0 0 (Or.inl rfl) (List.Perm.refl _)⟩

/-- C3: on the compute path with a progress callback supplied, the recorded
completed values are exactly 1, 2, ..., 14 in order — strictly increasing,
one invocation per finished section, every invocation carrying total = 14,
ending at (14, 14, _), and reaching the final value 14 exactly once. -/
theorem claim_C3 (fn : String → AnalyticFn) (events_df : DataFrame)
    (phases_df : Option DataFrame) (team_id : Option String) (use_cache : Bool)
    (cache : Cache) (now : Int) (writeOk : Bool) (order : List Section)
    (durs : String → Rat) (startT endT : Rat)
    (hmiss : use_cache = false ∨
      _load_from_cache cache now (_generate_cache_key events_df phases_df team_id) = none)
    (horder : order.Perm (mkEngineSections fn)) :
    ((compute_all_metrics (mkEngineSections fn) events_df phases_df team_id use_cache
        true cache now writeOk order durs startT endT).progress.map (fun t => t.1)) =
      List.range' 1 14 ∧
    List.Pairwise (· < ·)
      ((compute_all_metrics (mkEngineSections fn) events_df phases_df team_id use_cache
        true cache now writeOk order durs startT endT).progress.map (fun t => t.1)) ∧
    (compute_all_metrics (mkEngineSections fn) events_df phases_df team_id use_cache
        true cache now writeOk order durs startT endT).progress.length = 14 ∧
    (∀ t ∈ (compute_all_metrics (mkEngineSections fn) events_df phases_df team_id
        use_cache true cache now writeOk order durs startT endT).progress, t.2.1 = 14) ∧
    (∃ m : String,
      (compute_all_metrics (mkEngineSections fn) events_df phases_df team_id use_cache
        true cache now writeOk order durs startT endT).progress.getLast? =
          some (14, 14, m)) ∧
    (compute_all_metrics (mkEngineSections fn) events_df phases_df team_id use_cache
        true cache now writeOk order durs startT endT).progress.countP
      (fun t => t.1 == 14) = 1 := by
  have hordlen : order.length = 14 := by rw [horder.length_eq]; rfl
  have hp := compute_all_metrics_miss_progress (mkEngineSections fn) events_df phases_df
    team_id use_cache true cache now writeOk order durs startT endT hmiss
  have hmap : ((compute_all_metrics (mkEngineSections fn) events_df phases_df team_id
      use_cache true cache now writeOk order durs startT endT).progress.map
        (fun t => t.1)) = List.range' 1 14 := by
    rw [hp, runSections_trace_fst]
    rw [hordlen]
  have htot : ∀ t ∈ (compute_all_metrics (mkEngineSections fn) events_df phases_df
      team_id use_cache true cache now writeOk order durs startT endT).progress,
      t.2.1 = 14 := by
    intro t ht
    rw [hp] at ht
    exact runSections_trace_total (mkEngineSections fn).length events_df phases_df durs
      order 0 t ht
  refine ⟨hmap, ?_, ?_, htot, ?_, ?_⟩
  · rw [hmap]
    exact List.pairwise_lt_range' 1 14
  · have hl := congrArg List.length hmap
    rw [List.length_map] at hl
    simpa using hl
  · have hgl : Option.map (fun t : ProgressEvent => t.1)
        ((compute_all_metrics (mkEngineSections fn) events_df phases_df team_id use_cache
          true cache now writeOk order durs startT endT).progress.getLast?) = some 14 := by
      rw [← List.getLast?_map, hmap]
      rfl
    rcases hglv : (compute_all_metrics (mkEngineSections fn) events_df phases_df team_id
        use_cache true cache now writeOk order durs startT endT).progress.getLast? with
      _ | t
    · rw [hglv] at hgl
      cases hgl
    · rw [hglv] at hgl
      obtain ⟨a, b, m⟩ := t
      have ha : a = 14 := by simpa using hgl
      have hmem : (a, b, m) ∈ (compute_all_metrics (mkEngineSections fn) events_df
          phases_df team_id use_cache true cache now writeOk order durs startT
          endT).progress := by
        obtain ⟨hne, heq⟩ := List.mem_getLast?_eq_getLast (x := (a, b, m)) (by rw [hglv]; rfl)
        rw [heq]
        exact List.getLast_mem hne
      have hb : b = 14 := htot _ hmem
      exact ⟨m, by rw [ha, hb]⟩
  · have hcm := List.countP_map (fun n : Nat => n == 14)
      (fun t : ProgressEvent => t.1)
      (compute_all_metrics (mkEngineSections fn) events_df phases_df team_id use_cache
        true cache now writeOk order durs startT endT).progress
    rw [hmap] at hcm
    have hres : List.countP (fun n : Nat => n == 14) (List.range' 1 14) = 1 := by decide
    rw [hres] at hcm
    exact hcm.symm

/-- C3 witness: concrete run with caching disabled, callback supplied, all
functions succeeding, registry completion order. -/
theorem claim_C3_witness :
    (false = false ∨
      _load_from_cache [] 0 (_generate_cache_key dfEmpty none none) = none) ∧
    (mkEngineSections fnAllOk).Perm (mkEngineSections fnAllOk) ∧
    (((compute_all_metrics (mkEngineSections fnAllOk) dfEmpty none none false
        true [] 0 true (mkEngineSections fnAllOk) (fun _ => 0) 0 0).progress.map
          (fun t => t.1)) = List.range' 1 14 ∧
     List.Pairwise (· < ·)
      ((compute_all_metrics (mkEngineSections fnAllOk) dfEmpty none none false
        true [] 0 true (mkEngineSections fnAllOk) (fun _ => 0) 0 0).progress.map
          (fun t => t.1)) ∧
     (compute_all_metrics (mkEngineSections fnAllOk) dfEmpty none none false
        true [] 0 true (mkEngineSections fnAllOk) (fun _ => 0) 0 0).progress.length = 14 ∧
     (∀ t ∈ (compute_all_metrics (mkEngineSections fnAllOk) dfEmpty none none false
        true [] 0 true (mkEngineSections fnAllOk) (fun _ => 0) 0 0).progress,
        t.2.1 = 14) ∧
     (∃ m : String,
      (compute_all_metrics (mkEngineSections fnAllOk) dfEmpty none none false
        true [] 0 true (mkEngineSections fnAllOk) (fun _ => 0) 0 0).progress.getLast? =
          some (14, 14, m)) ∧
     (compute_all_metrics (mkEngineSections fnAllOk) dfEmpty none none false
        true [] 0 true (mkEngineSections fnAllOk) (fun _ => 0) 0 0).progress.countP
      (fun t => t.1 == 14) = 1) :=
  ⟨Or.inl rfl, List.Perm.refl _,
   claim_C3 fnAllOk dfEmpty none none false [] 0 true
     (mkEngineSections fnAllOk) (fun _ => 0) 0 0 (Or.inl rfl) (List.Perm.refl _)⟩

/-- Scenario events table with 100 rows. -/
def df100 : DataFrame := ⟨["a"], List.replicate 100 [Value.num 1]⟩

/-- Scenario phases table with 10 rows. -/
def df10 : DataFrame := ⟨["b"], List.replicate 10 [Value.num 2]⟩

/-- C6: on the compute path the summary block carries total_sections = 14,
total_events = the events row count, total_phases = the phases row count (0
when absent), successful and failed section counters that sum to 14, and the
sections mapping has 14 entries. -/
theorem claim_C6 (fn : String → AnalyticFn) (events_df : DataFrame)
    (phases_df : Option DataFrame) (team_id : Option String) (use_cache hasCb : Bool)
    (cache : Cache) (now : Int) (writeOk : Bool) (order : List Section)
    (durs : String → Rat) (startT endT : Rat)
    (hmiss : use_cache = false ∨
      _load_from_cache cache now (_generate_cache_key events_df phases_df team_id) = none)
    (horder : order.Perm (mkEngineSections fn)) :
    ∃ sm : PyDict,
      (compute_all_metrics (mkEngineSections fn) events_df phases_df team_id use_cache
          hasCb cache now writeOk order durs startT endT).bundle.get "summary" =
        some (.dict sm) ∧
      sm.get "total_sections" = some (.num (14 : Rat)) ∧
      sm.get "total_events" = some (.num (events_df.rows.length : Rat)) ∧
      sm.get "total_phases" = some (.num ((pyLenOpt phases_df : Nat) : Rat)) ∧
      (∃ s f : Nat,
        sm.get "successful_sections" = some (.num (s : Rat)) ∧
        sm.get "failed_sections" = some (.num (f : Rat)) ∧
        s + f = 14) ∧
      (∃ secs : List (String × MVal),
        (compute_all_metrics (mkEngineSections fn) events_df phases_df team_id use_cache
            hasCb cache now writeOk order durs startT endT).bundle.get "sections" =
          some (.dict secs) ∧ secs.length = 14) := by
  obtain ⟨sm, hsm, hts, hte, htp, hsucc, hfail⟩ :=
    compute_all_metrics_miss_summary (mkEngineSections fn) events_df phases_df team_id
      use_cache hasCb cache now writeOk order durs startT endT hmiss
  have hlen : order.length = 14 := by rw [horder.length_eq]; rfl
  refine ⟨sm, hsm, ?_, hte, htp, ?_, ?_⟩
  · rw [length_mkEngineSections] at hts
    simpa using hts
  · refine ⟨_, _, hsucc, hfail, ?_⟩
    rw [countP_success_runSections, countP_error_runSections]
    have hsplit := countP_add_countP_not
      (fun sec => exOk (sec.function events_df phases_df)) order
    omega
  · refine ⟨_, compute_all_metrics_miss_sections (mkEngineSections fn) events_df phases_df
      team_id use_cache hasCb cache now writeOk order durs startT endT hmiss, ?_⟩
    rw [List.length_map, runSections_results, List.length_map, hlen]

/-- C6 witness: the spec scenario — 100-row events, 10-row phases, identifier
match_001, caching off. -/
theorem claim_C6_witness :
    (false = false ∨
      _load_from_cache [] 0 (_generate_cache_key df100 (some df10) (some "match_001")) =
        none) ∧
    (mkEngineSections fnAllOk).Perm (mkEngineSections fnAllOk) ∧
    (∃ sm : PyDict,
      (compute_all_metrics (mkEngineSections fnAllOk) df100 (some df10)
          (some "match_001") false true [] 0 true (mkEngineSections fnAllOk)
          (fun _ => 0) 0 0).bundle.get "summary" = some (.dict sm) ∧
      sm.get "total_sections" = some (.num (14 : Rat)) ∧
      sm.get "total_events" = some (.num (100 : Rat)) ∧
      sm.get "total_phases" = some (.num (10 : Rat)) ∧
      (∃ s f : Nat,
        sm.get "successful_sections" = some (.num (s : Rat)) ∧
        sm.get "failed_sections" = some (.num (f : Rat)) ∧
        s + f = 14) ∧
      (∃ secs : List (String × MVal),
        (compute_all_metrics (mkEngineSections fnAllOk) df100 (some df10)
            (some "match_001") false true [] 0 true (mkEngineSections fnAllOk)
            (fun _ => 0) 0 0).bundle.get "sections" =
          some (.dict secs) ∧ secs.length = 14)) := by
  refine ⟨Or.inl rfl, List.Perm.refl _, ?_⟩
  obtain ⟨sm, h0, h1, h2, h3, h4, h5⟩ :=
    claim_C6 fnAllOk df100 (some df10) (some "match_001") false true [] 0 true
      (mkEngineSections fnAllOk) (fun _ => 0) 0 0 (Or.inl rfl) (List.Perm.refl _)
  refine ⟨sm, h0, h1, ?_, ?_, h4, h5⟩
  · have : (df100.rows.length : Rat) = (100 : Rat) := by norm_num [df100]
    rw [← this]
    exact h2
  · have : ((pyLenOpt (some df10) : Nat) : Rat) = (10 : Rat) := by norm_num [pyLenOpt, df10]
    rw [← this]
    exact h3

/-- C5: when caching is on and the lookup for the computed fingerprint hits,
compute_all_metrics fires the progress callback exactly once with
(14, 14, Loaded from cache), returns the cached bundle verbatim, leaves the
cache untouched and executes no section function. -/
theorem claim_C5 (fn : String → AnalyticFn) (events_df : DataFrame)
    (phases_df : Option DataFrame) (team_id : Option String) (cache : Cache)
    (now : Int) (writeOk : Bool) (order : List Section) (durs : String → Rat)
    (startT endT : Rat) (cached : PyDict)
    (hhit : _load_from_cache cache now (_generate_cache_key events_df phases_df team_id) =
      some cached) :
    compute_all_metrics (mkEngineSections fn) events_df phases_df team_id true true
        cache now writeOk order durs startT endT =
      { bundle := cached
        progress := [(14, 14, "Loaded from cache")]
        cache := cache
        executed := [] } := by
  rw [compute_all_metrics_hit (mkEngineSections fn) events_df phases_df team_id true
    cache now writeOk order durs startT endT cached hhit]
  rfl

/-- Sample cached bundle for the cache-path witnesses. -/
def cachedBundle : PyDict := [("team_id", .null), ("sections", .dict [])]

/-- Fingerprint of the sample inputs for the cache-path witnesses. -/
def hitKey : String := _generate_cache_key dfEmpty none none

/-- Cache directory holding a fresh entry under the sample fingerprint. -/
def hitCache : Cache := [(hitKey, ⟨.ok cachedBundle, 0⟩)]

/-- C5 witness: a concrete fresh cache entry is returned verbatim with a
single full progress event and no section executed. -/
theorem claim_C5_witness :
    _load_from_cache hitCache 10 (_generate_cache_key dfEmpty none none) =
      some cachedBundle ∧
    compute_all_metrics (mkEngineSections fnAllOk) dfEmpty none none true true
        hitCache 10 true (mkEngineSections fnAllOk) (fun _ => 0) 0 0 =
      { bundle := cachedBundle
        progress := [(14, 14, "Loaded from cache")]
        cache := hitCache
        executed := [] } :=
  ⟨rfl, claim_C5 fnAllOk dfEmpty none none hitCache 10 true
    (mkEngineSections fnAllOk) (fun _ => 0) 0 0 cachedBundle rfl⟩

/-- Events table with columns a, b and no rows. -/
def dfAB : DataFrame := ⟨["a", "b"], []⟩

/-- The same table with the two columns swapped: identical column set,
identical rows. -/
def dfBA : DataFrame := ⟨["b", "a"], []⟩

/-- C4 counterexample: the key is built from the ordered column list, so two
inputs with the same row count, the same column-name set and the same rows
but a different column order get different keys — the claimed invariance to
column-name order fails. -/
theorem claim_C4_counterexample :
    dfAB.cols.toFinset = dfBA.cols.toFinset ∧
    dfAB.rows = dfBA.rows ∧
    _generate_cache_key dfAB none none ≠ _generate_cache_key dfBA none none :=
  ⟨by decide, rfl, by decide⟩

/-- C4 (amended): the cache key is a stable hash over the events row count,
the ordered events column-name list, the phases row count and ordered column
list (when present) and the truthy identifier — invariant to row order within
the tables, and (with the digest idealised as injective) a different
identifier string always yields a different key for the same shape. It is
sensitive, not invariant, to the order of the column names. -/
theorem claim_C4 (cols : List String) (rows rows2 : List (List Value))
    (pcols : List String) (prows prows2 : List (List Value))
    (phases_df : Option DataFrame) (team_id : Option String) (t1 t2 : String)
    (hperm : rows2.Perm rows) (hperm2 : prows2.Perm prows) (hne : t1 ≠ t2) :
    _generate_cache_key ⟨cols, rows2⟩ phases_df team_id =
      _generate_cache_key ⟨cols, rows⟩ phases_df team_id ∧
    _generate_cache_key ⟨cols, rows⟩ (some ⟨pcols, prows2⟩) team_id =
      _generate_cache_key ⟨cols, rows⟩ (some ⟨pcols, prows⟩) team_id ∧
    _generate_cache_key ⟨cols, rows⟩ phases_df (some t1) ≠
      _generate_cache_key ⟨cols, rows⟩ phases_df (some t2) := by
  have hulen : ("_" : String).length = 1 := rfl
  refine ⟨?_, ?_, ?_⟩
  · simp only [_generate_cache_key]
    rw [hperm.length_eq]
  · simp only [_generate_cache_key]
    rw [hperm2.length_eq]
  · intro heq
    simp only [_generate_cache_key, md5_hexdigest] at heq
    by_cases h1 : t1 = "" <;> by_cases h2 : t2 = ""
    · exact hne (h1.trans h2.symm)
    · rw [if_pos h1, if_neg h2] at heq
      have hl := congrArg String.length heq
      simp only [String.length_append, hulen] at hl
      omega
    · rw [if_neg h1, if_pos h2] at heq
      have hl := congrArg String.length heq
      simp only [String.length_append, hulen] at hl
      omega
    · rw [if_neg h1, if_neg h2] at heq
      have hd := congrArg String.data heq
      simp only [String.data_append] at hd
      exact hne (String.ext (List.append_cancel_left hd))

/-- C4 witness: row-order invariance of both tables and identifier
sensitivity at a concrete shape. -/
theorem claim_C4_witness :
    ([[Value.num 2], [Value.num 1]] : List (List Value)).Perm
      [[Value.num 1], [Value.num 2]] ∧
    ([[Value.num 4], [Value.num 3]] : List (List Value)).Perm
      [[Value.num 3], [Value.num 4]] ∧
    ("x" : String) ≠ "y" ∧
    (_generate_cache_key ⟨["a"], [[Value.num 2], [Value.num 1]]⟩ none none =
      _generate_cache_key ⟨["a"], [[Value.num 1], [Value.num 2]]⟩ none none ∧
    _generate_cache_key ⟨["a"], [[Value.num 1], [Value.num 2]]⟩
        (some ⟨["b"], [[Value.num 4], [Value.num 3]]⟩) none =
      _generate_cache_key ⟨["a"], [[Value.num 1], [Value.num 2]]⟩
        (some ⟨["b"], [[Value.num 3], [Value.num 4]]⟩) none ∧
    _generate_cache_key ⟨["a"], [[Value.num 1], [Value.num 2]]⟩ none (some "x") ≠
      _generate_cache_key ⟨["a"], [[Value.num 1], [Value.num 2]]⟩ none (some "y")) :=
  ⟨List.Perm.swap _ _ _, List.Perm.swap _ _ _, by decide,
   claim_C4 ["a"] [[Value.num 1], [Value.num 2]] [[Value.num 2], [Value.num 1]]
     ["b"] [[Value.num 3], [Value.num 4]] [[Value.num 4], [Value.num 3]]
     none none "x" "y" (List.Perm.swap _ _ _) (List.Perm.swap _ _ _) (by decide)⟩

/-- C10: the falsy identifier check makes the empty-string identifier and the
absent identifier produce the same cache key, so such calls address the same
cache entry. -/
theorem claim_C10 (events_df : DataFrame) (phases_df : Option DataFrame)
    (cache : Cache) (now : Int) :
    _generate_cache_key events_df phases_df (some "") =
      _generate_cache_key events_df phases_df none ∧
    _load_from_cache cache now (_generate_cache_key events_df phases_df (some "")) =
      _load_from_cache cache now (_generate_cache_key events_df phases_df none) := by
  have h : _generate_cache_key events_df phases_df (some "") =
      _generate_cache_key events_df phases_df none := by
    simp [_generate_cache_key]
  exact ⟨h, by rw [h]⟩

theorem lookupEntry_save_self (cache : Cache) (now : Int) (key : String)
    (data : PyDict) :
    (_save_to_cache cache now true key data).lookupEntry key =
      some ⟨.ok data, now⟩ := by
  unfold _save_to_cache Cache.lookupEntry
  rw [if_pos rfl]
  by_cases h : (cache.any (fun p => p.1 == key)) = true
  · rw [if_pos h, find?_map_replace]
    have hs : (cache.find? (fun p => p.1 == key)).isSome = true := by
      rw [List.find?_isSome]
      simpa [List.any_eq_true] using h
    obtain ⟨a, ha⟩ := Option.isSome_iff_exists.mp hs
    simp [ha]
  · rw [if_neg h, List.find?_append]
    have hn : cache.find? (fun p => p.1 == key) = none := by
      rw [List.find?_eq_none]
      intro x hx hpx
      exact h (List.any_eq_true.mpr ⟨x, hx, hpx⟩)
    simp [hn, List.find?]

/-- C7: a lookup hit requires an existing, readable entry younger than the
3600-second TTL; a stale entry is treated as absent (and the pure lookup
rewrites nothing), and the next compute with caching on runs all sections
afresh and overwrites the stale entry under the same key with the new bundle
stamped at the current time. -/
theorem claim_C7 (fn : String → AnalyticFn) (events_df : DataFrame)
    (phases_df : Option DataFrame) (team_id : Option String) (hasCb : Bool)
    (cache : Cache) (now : Int) (order : List Section) (durs : String → Rat)
    (startT endT : Rat) (entry : CacheEntry)
    (cache2 : Cache) (now2 : Int) (key2 : String) (d2 : PyDict)
    (hentry : cache.lookupEntry (_generate_cache_key events_df phases_df team_id) =
      some entry)
    (hstale : 3600 ≤ now - entry.mtime)
    (hlook : _load_from_cache cache2 now2 key2 = some d2) :
    _load_from_cache cache now (_generate_cache_key events_df phases_df team_id) =
      none ∧
    (compute_all_metrics (mkEngineSections fn) events_df phases_df team_id true hasCb
        cache now true order durs startT endT).executed = order.map (fun s => s.id) ∧
    ((compute_all_metrics (mkEngineSections fn) events_df phases_df team_id true hasCb
        cache now true order durs startT endT).cache).lookupEntry
      (_generate_cache_key events_df phases_df team_id) =
      some ⟨.ok (compute_all_metrics (mkEngineSections fn) events_df phases_df team_id
        true hasCb cache now true order durs startT endT).bundle, now⟩ ∧
    (∃ e2 : CacheEntry, cache2.lookupEntry key2 = some e2 ∧ e2.blob = .ok d2 ∧
      now2 - e2.mtime < 3600) := by
  have h1 : _load_from_cache cache now (_generate_cache_key events_df phases_df team_id) =
      none := by
    cases eb : entry.blob with
    | error e => simp [_load_from_cache, hentry, eb]
    | ok dta =>
      simp only [_load_from_cache, hentry, eb]
      rw [if_neg (by omega)]
  refine ⟨h1, compute_all_metrics_miss_executed (mkEngineSections fn) events_df phases_df
    team_id true hasCb cache now true order durs startT endT (Or.inr h1), ?_, ?_⟩
  · rw [compute_all_metrics_miss_cache (mkEngineSections fn) events_df phases_df team_id
      true hasCb cache now true order durs startT endT (Or.inr h1)]
    rw [if_pos rfl]
    exact lookupEntry_save_self cache now (_generate_cache_key events_df phases_df team_id)
      _
  · cases he2 : cache2.lookupEntry key2 with
    | none => simp [_load_from_cache, he2] at hlook
    | some e2 =>
      cases eb : e2.blob with
      | error e => simp [_load_from_cache, he2, eb] at hlook
      | ok dta =>
        by_cases hfresh : now2 - e2.mtime < 3600
        · refine ⟨e2, rfl, ?_, hfresh⟩
          rw [eb]
          have hdd : dta = d2 := by
            simpa [_load_from_cache, he2, eb, hfresh] using hlook
          rw [hdd]
        · simp [_load_from_cache, he2, eb, hfresh] at hlook

/-- Cache directory holding a stale entry (a whole TTL in the past) under the
sample fingerprint. -/
def staleCache : Cache := [(hitKey, ⟨.ok cachedBundle, 0⟩)]

/-- C7 witness: a concrete stale entry is ignored by lookup and overwritten
by the following compute, while a concrete fresh entry is returned. -/
theorem claim_C7_witness :
    staleCache.lookupEntry (_generate_cache_key dfEmpty none none) =
      some ⟨.ok cachedBundle, 0⟩ ∧
    (3600 : Int) ≤ 4000 - (0 : Int) ∧
    _load_from_cache hitCache 10 hitKey = some cachedBundle ∧
    (_load_from_cache staleCache 4000 (_generate_cache_key dfEmpty none none) = none ∧
    (compute_all_metrics (mkEngineSections fnAllOk) dfEmpty none none true true
        staleCache 4000 true (mkEngineSections fnAllOk) (fun _ => 0) 0 0).executed =
      (mkEngineSections fnAllOk).map (fun s => s.id) ∧
    ((compute_all_metrics (mkEngineSections fnAllOk) dfEmpty none none true true
        staleCache 4000 true (mkEngineSections fnAllOk) (fun _ => 0) 0 0).cache).lookupEntry
      (_generate_cache_key dfEmpty none none) =
      some ⟨.ok (compute_all_metrics (mkEngineSections fnAllOk) dfEmpty none none true
        true staleCache 4000 true (mkEngineSections fnAllOk) (fun _ => 0) 0 0).bundle,
        4000⟩ ∧
    (∃ e2 : CacheEntry, hitCache.lookupEntry hitKey = some e2 ∧
      e2.blob = .ok cachedBundle ∧ (10 : Int) - e2.mtime < 3600)) :=
  ⟨rfl, by decide, rfl,
   claim_C7 fnAllOk dfEmpty none none true staleCache 4000
     (mkEngineSections fnAllOk) (fun _ => 0) 0 0 ⟨.ok cachedBundle, 0⟩
     hitCache 10 hitKey cachedBundle rfl (by decide) rfl⟩

/-- C8: a corrupt or unreadable cache entry is treated as a miss and never
surfaced — the computation proceeds and returns exactly the bundle a
cache-disabled run would return; and a failing cache write is swallowed — the
bundle is still returned and the cache directory is left unchanged. -/
theorem claim_C8 (fn : String → AnalyticFn) (events_df : DataFrame)
    (phases_df : Option DataFrame) (team_id : Option String) (hasCb : Bool)
    (cache : Cache) (now : Int) (writeOk : Bool) (order : List Section)
    (durs : String → Rat) (startT endT : Rat) (entry : CacheEntry) (msg : String)
    (hentry : cache.lookupEntry (_generate_cache_key events_df phases_df team_id) =
      some entry)
    (hcorrupt : entry.blob = .error msg) :
    _load_from_cache cache now (_generate_cache_key events_df phases_df team_id) =
      none ∧
    (compute_all_metrics (mkEngineSections fn) events_df phases_df team_id true hasCb
        cache now writeOk order durs startT endT).bundle =
      (compute_all_metrics (mkEngineSections fn) events_df phases_df team_id false hasCb
        [] now writeOk order durs startT endT).bundle ∧
    (compute_all_metrics (mkEngineSections fn) events_df phases_df team_id true hasCb
        cache now false order durs startT endT).bundle =
      (compute_all_metrics (mkEngineSections fn) events_df phases_df team_id false hasCb
        [] now writeOk order durs startT endT).bundle ∧
    (compute_all_metrics (mkEngineSections fn) events_df phases_df team_id true hasCb
        cache now false order durs startT endT).cache = cache := by
  have h1 : _load_from_cache cache now (_generate_cache_key events_df phases_df team_id) =
      none := by
    simp [_load_from_cache, hentry, hcorrupt]
  refine ⟨h1, ?_, ?_, ?_⟩
  · exact compute_all_metrics_miss_bundle_indep (mkEngineSections fn) events_df phases_df
      team_id true false hasCb cache [] now now writeOk writeOk order durs startT endT
      (Or.inr h1) (Or.inl rfl)
  · exact compute_all_metrics_miss_bundle_indep (mkEngineSections fn) events_df phases_df
      team_id true false hasCb cache [] now now false writeOk order durs startT endT
      (Or.inr h1) (Or.inl rfl)
  · rw [compute_all_metrics_miss_cache (mkEngineSections fn) events_df phases_df team_id
      true hasCb cache now false order durs startT endT (Or.inr h1)]
    rfl

/-- Cache directory holding an unreadable (corrupt pickle) entry under the
sample fingerprint. -/
def corruptCache : Cache := [(hitKey, ⟨.error "bad pickle", 0⟩)]

/-- C8 witness: concrete corrupt entry and failing write around one compute. -/
theorem claim_C8_witness :
    corruptCache.lookupEntry (_generate_cache_key dfEmpty none none) =
      some ⟨.error "bad pickle", 0⟩ ∧
    (_load_from_cache corruptCache 10 (_generate_cache_key dfEmpty none none) = none ∧
    (compute_all_metrics (mkEngineSections fnAllOk) dfEmpty none none true true
        corruptCache 10 true (mkEngineSections fnAllOk) (fun _ => 0) 0 0).bundle =
      (compute_all_metrics (mkEngineSections fnAllOk) dfEmpty none none false true
        [] 10 true (mkEngineSections fnAllOk) (fun _ => 0) 0 0).bundle ∧
    (compute_all_metrics (mkEngineSections fnAllOk) dfEmpty none none true true
        corruptCache 10 false (mkEngineSections fnAllOk) (fun _ => 0) 0 0).bundle =
      (compute_all_metrics (mkEngineSections fnAllOk) dfEmpty none none false true
        [] 10 true (mkEngineSections fnAllOk) (fun _ => 0) 0 0).bundle ∧
    (compute_all_metrics (mkEngineSections fnAllOk) dfEmpty none none true true
        corruptCache 10 false (mkEngineSections fnAllOk) (fun _ => 0) 0 0).cache =
      corruptCache) :=
  ⟨rfl,
   claim_C8 fnAllOk dfEmpty none none true corruptCache 10 true
     (mkEngineSections fnAllOk) (fun _ => 0) 0 0 ⟨.error "bad pickle", 0⟩
     "bad pickle" rfl rfl⟩

/-- Events table lacking the optional phase-type column (it has a player_id
column and one row), the failing input of claim C9. -/
def c9FailDF : DataFrame := ⟨["player_id"], [[.num 7]]⟩

/-- Events table carrying the three columns the formation loop reads but
lacking the guarded optional columns (phase_index, player_position,
channel_start, third_start, player_name): the guarded checks degrade
gracefully on it. -/
def c9OkDF : DataFrame :=
  ⟨["team_in_possession_phase_type", "team_in_possession_length_start",
    "team_in_possession_width_start", "player_id"],
   [[.str "build_up", .num 30, .num 40, .num 7]]⟩

/-- C9: evaluation at the failing input. The unguarded access to the
phase-type column at the top of the formation-fluidity loop raises KeyError
when that column is absent, so the team-identity section result ends with
status error and empty metrics instead of the graceful partial result the
spec requires; columns the code does guard (phase_index and the channel
columns, absent from the second table) degrade gracefully and the section
succeeds. -/
theorem claim_C9_eval :
    analyze_team_identity c9FailDF none =
      .error "KeyError: team_in_possession_phase_type" ∧
    compute_section teamIdentitySection c9FailDF none 0 =
      [("id", .str "team_identity"), ("name", .str "Team Identity & Setup"),
       ("icon", .str "🧩"), ("section", .str "Team Identity & Setup"),
       ("status", .str "error"),
       ("error", .str "KeyError: team_in_possession_phase_type"),
       ("metrics", .dict [])] ∧
    (compute_section teamIdentitySection c9OkDF none 0).get "status" =
      some (.str "success") :=
  ⟨rfl, rfl, rfl⟩

end Fchat
